import Mathlib

/-!
Shallow embedding of the icn-prototype node (JavaScript) for verification.

The repository contains two implementations of the credit ledger:
an in-memory one (`CreditSystem` below, from the file whose name is unknown,
`src/unnamed/part_001`) and a levelDB-backed one (`CreditSystemDb` below,
from `src/lib/credits.js`).  Both are embedded faithfully.

Modelling conventions:
* JavaScript numbers are modelled as `ℚ` (the claims under scrutiny are
  structural, not about float rounding);
* a JavaScript `Map` is modelled as an insertion-ordered association list
  (`lookupA`, `setA`, `removeA` mirror `get`, `set`, `delete`);
* a method that can `throw` is modelled as returning the state at the moment
  of the throw together with `Except`: mutations performed before the throw
  persist, exactly as for an in-place mutated JS object;
* error messages are abstracted to their kind (`IcnError`).
-/

namespace ICN

abbrev NodeId := String

/-- Lookup in an association list, mirroring `Map.get` (first match wins). -/
def lookupA {α : Type} : List (String × α) → String → Option α
  | [], _ => none
  | (k, v) :: rest, key => if k = key then some v else lookupA rest key

/-- Insert-or-replace, mirroring `Map.set` (replaces the first matching key,
otherwise appends, preserving insertion order). -/
def setA {α : Type} : List (String × α) → String → α → List (String × α)
  | [], key, v => [(key, v)]
  | (k, w) :: rest, key, v =>
    if k = key then (key, v) :: rest else (k, w) :: setA rest key v

/-- Deletion, mirroring `Map.delete` (removes the first matching key). -/
def removeA {α : Type} : List (String × α) → String → List (String × α)
  | [], _ => []
  | (k, v) :: rest, key => if k = key then rest else (k, v) :: removeA rest key

/-- Cumulative resource usage of one transaction
(`resourceUsage` object in both credit-system files). -/
structure Usage where
  cpuSeconds : ℚ
  memoryMbSeconds : ℚ
  storageGbHours : ℚ
  bandwidthGb : ℚ
deriving DecidableEq, Repr

/-- The all-zero usage a fresh transaction starts with. -/
def Usage.zero : Usage := ⟨0, 0, 0, 0⟩

/-- A usage-update argument: a JS object whose four fields may each be absent
(the code reads them with `usage.cpuSeconds || 0` resp. `Object.assign`). -/
structure UsageDelta where
  cpuSeconds : Option ℚ
  memoryMbSeconds : Option ℚ
  storageGbHours : Option ℚ
  bandwidthGb : Option ℚ
deriving DecidableEq, Repr

/-- Error kinds thrown by the embedded code (messages abstracted to kind). -/
inductive IcnError where
  | insufficientBalance
  | transactionNotFound
  | workloadNotFound
deriving DecidableEq, Repr

/-- The transaction record created by `startResourceTracking`.
`endTime`/`finalCredits` are `Option` because the JS object acquires these
fields only during `completeTransaction`. -/
structure Transaction where
  id : String
  workloadId : String
  consumerId : NodeId
  providerId : NodeId
  startTime : ℕ
  status : String
  resourceUsage : Usage
  estimatedCredits : ℚ
  endTime : Option ℕ
  finalCredits : Option ℚ
deriving DecidableEq, Repr

/-- An immutable transfer record appended by `_transferCredits`. -/
structure Transfer where
  fromNodeId : NodeId
  toNodeId : NodeId
  amount : ℚ
  description : String
  timestamp : ℕ
deriving DecidableEq, Repr

/-- Entries of the in-memory ledger's `transactions` array: completed
transactions, transfer records and `addCredits` records all get pushed into
the same array in `src/unnamed/part_001`. -/
inductive LedgerRecord where
  | txRecord (t : Transaction)
  | transferRecord (t : Transfer)
  | creditAddition (toNodeId : NodeId) (amount : ℚ) (description : String) (timestamp : ℕ)
deriving DecidableEq, Repr

/-- State of the in-memory credit system (`src/unnamed/part_001`):
`balances` (a `Map`), the `transactions` array, and the `activeTransactions`
`Map`. -/
structure CreditSystem where
  balances : List (NodeId × ℚ)
  transactions : List LedgerRecord
  activeTransactions : List (String × Transaction)
deriving DecidableEq, Repr

/-- Embeds `getBalance` of `src/unnamed/part_001`:
`this.balances.get(nodeId) || 0`. -/
def getBalance (s : CreditSystem) (nodeId : NodeId) : ℚ :=
  (lookupA s.balances nodeId).getD 0

/-- Embeds `_calculateCredits` (identical in both credit-system files):
the fixed linear tariff 0.01 per CPU-second, 0.001 per MB-second,
0.05 per GB-hour, 0.1 per GB transferred. -/
def calculateCredits (u : Usage) : ℚ :=
  u.cpuSeconds * (1 / 100) + u.memoryMbSeconds * (1 / 1000)
    + u.storageGbHours * (5 / 100) + u.bandwidthGb * (1 / 10)

/-- Embeds `_transferCredits` of `src/unnamed/part_001`: read both balances
(`|| 0`), throw if `fromBalance < amount` (no state change yet), otherwise
write both balances in order (`set from`, then `set to`) and push the
transfer record. -/
def transferCredits (s : CreditSystem) (src dst : NodeId) (amount : ℚ)
    (description : String) (now : ℕ) : CreditSystem × Except IcnError Transfer :=
  let fromBalance := (lookupA s.balances src).getD 0
  let toBalance := (lookupA s.balances dst).getD 0
  if fromBalance < amount then
    (s, .error .insufficientBalance)
  else
    let tr : Transfer :=
      { fromNodeId := src, toNodeId := dst, amount := amount,
        description := description, timestamp := now }
    ({ s with
        balances := setA (setA s.balances src (fromBalance - amount)) dst (toBalance + amount),
        transactions := s.transactions ++ [.transferRecord tr] },
      .ok tr)

/-- Identifier built by `startResourceTracking`: `${workloadId}-${Date.now()}`. -/
def mkTransactionId (workloadId : String) (now : ℕ) : String :=
  workloadId ++ "-" ++ toString now

/-- Embeds `startResourceTracking` of `src/unnamed/part_001`: initializes
absent consumer/provider balances to the 1000-credit starting allotment
(only when the key is absent from the `Map`), then registers a fresh active
transaction with zero usage. -/
def startResourceTracking (s : CreditSystem) (workloadId consumerId providerId : String)
    (now : ℕ) : CreditSystem × String :=
  let txId := mkTransactionId workloadId now
  let bal1 := if (lookupA s.balances consumerId).isNone
              then setA s.balances consumerId 1000 else s.balances
  let bal2 := if (lookupA bal1 providerId).isNone
              then setA bal1 providerId 1000 else bal1
  let tx : Transaction :=
    { id := txId, workloadId := workloadId, consumerId := consumerId,
      providerId := providerId, startTime := now, status := "active",
      resourceUsage := Usage.zero, estimatedCredits := 0,
      endTime := none, finalCredits := none }
  ({ s with balances := bal2,
            activeTransactions := setA s.activeTransactions txId tx },
    txId)

/-- Embeds `updateResourceUsage` of `src/unnamed/part_001`: throws Not-Found
for an unknown active transaction, otherwise ADDS each supplied field
(`+= usage.x || 0`) to the cumulative usage and recomputes
`estimatedCredits`. -/
def updateResourceUsage (s : CreditSystem) (txId : String) (usage : UsageDelta) :
    CreditSystem × Except IcnError Transaction :=
  match lookupA s.activeTransactions txId with
  | none => (s, .error .transactionNotFound)
  | some tx =>
    let ru : Usage :=
      { cpuSeconds := tx.resourceUsage.cpuSeconds + usage.cpuSeconds.getD 0,
        memoryMbSeconds := tx.resourceUsage.memoryMbSeconds + usage.memoryMbSeconds.getD 0,
        storageGbHours := tx.resourceUsage.storageGbHours + usage.storageGbHours.getD 0,
        bandwidthGb := tx.resourceUsage.bandwidthGb + usage.bandwidthGb.getD 0 }
    let tx1 := { tx with resourceUsage := ru, estimatedCredits := calculateCredits ru }
    ({ s with activeTransactions := setA s.activeTransactions txId tx1 }, .ok tx1)

/-- Embeds `completeTransaction` of `src/unnamed/part_001`.  Faithful to the
JS mutation order: the transaction object (aliased inside the
`activeTransactions` map) is marked `completed` and given `endTime` and
`finalCredits` BEFORE `_transferCredits` is attempted; if the transfer
throws, those mutations persist and the entry stays in the active map. -/
def completeTransaction (s : CreditSystem) (txId : String) (now : ℕ) :
    CreditSystem × Except IcnError Transaction :=
  match lookupA s.activeTransactions txId with
  | none => (s, .error .transactionNotFound)
  | some tx =>
    let creditAmount := calculateCredits tx.resourceUsage
    let tx1 := { tx with status := "completed", endTime := some now,
                         finalCredits := some creditAmount }
    let s1 := { s with activeTransactions := setA s.activeTransactions txId tx1 }
    match transferCredits s1 tx1.consumerId tx1.providerId creditAmount
        ("Payment for workload " ++ tx.workloadId) now with
    | (s2, .error e) => (s2, .error e)
    | (s2, .ok _) =>
      ({ s2 with transactions := s2.transactions ++ [.txRecord tx1],
                 activeTransactions := removeA s2.activeTransactions txId },
        .ok tx1)

/-- Embeds `addCredits` of `src/unnamed/part_001`: initialize an absent
balance to 0, add `amount`, push a `credit_addition` record. -/
def addCredits (s : CreditSystem) (nodeId : NodeId) (amount : ℚ)
    (reason : String) (now : ℕ) : CreditSystem × LedgerRecord :=
  let bal0 := if (lookupA s.balances nodeId).isNone
              then setA s.balances nodeId 0 else s.balances
  let current := (lookupA bal0 nodeId).getD 0
  let rec0 : LedgerRecord := .creditAddition nodeId amount reason now
  ({ s with balances := setA bal0 nodeId (current + amount),
            transactions := s.transactions ++ [rec0] },
    rec0)

/-- State of the levelDB-backed credit system (`src/lib/credits.js`): the
`balance:*`, `transaction:*` and `transfer:*` key families of the store,
plus the in-memory `activeTransactions` `Map`. -/
structure CreditSystemDb where
  balances : List (NodeId × ℚ)
  txStore : List (String × Transaction)
  transfers : List Transfer
  activeTransactions : List (String × Transaction)
deriving DecidableEq, Repr

/-- Embeds `getBalance` of `src/lib/credits.js`: a missing key raises
`NotFoundError`, which the method handles by writing a `0` balance and
returning 0 — an observable store initialization, hence the state result. -/
def dbGetBalance (s : CreditSystemDb) (nodeId : NodeId) : CreditSystemDb × ℚ :=
  match lookupA s.balances nodeId with
  | some b => (s, b)
  | none => ({ s with balances := setA s.balances nodeId 0 }, 0)

/-- Embeds `_transferCredits` of `src/lib/credits.js`: read both balances
(with implicit 0-initialization), throw if insufficient, otherwise batch-write
both balances (`from` then `to`, last write wins on equal keys, as in a level
batch) and the transfer record. -/
def dbTransferCredits (s : CreditSystemDb) (src dst : NodeId) (amount : ℚ)
    (description : String) (now : ℕ) : CreditSystemDb × Except IcnError Transfer :=
  let p1 := dbGetBalance s src
  let p2 := dbGetBalance p1.1 dst
  let fromBalance := p1.2
  let toBalance := p2.2
  if fromBalance < amount then
    (p2.1, .error .insufficientBalance)
  else
    let tr : Transfer :=
      { fromNodeId := src, toNodeId := dst, amount := amount,
        description := description, timestamp := now }
    ({ p2.1 with
        balances := setA (setA p2.1.balances src (fromBalance - amount)) dst (toBalance + amount),
        transfers := p2.1.transfers ++ [tr] },
      .ok tr)

/-- Embeds `startResourceTracking` of `src/lib/credits.js`: registers a fresh
active transaction and persists it under `transaction:<id>`.  Unlike the
in-memory version, no balance is initialized here. -/
def dbStartResourceTracking (s : CreditSystemDb) (workloadId consumerId providerId : String)
    (now : ℕ) : CreditSystemDb × String :=
  let txId := mkTransactionId workloadId now
  let tx : Transaction :=
    { id := txId, workloadId := workloadId, consumerId := consumerId,
      providerId := providerId, startTime := now, status := "active",
      resourceUsage := Usage.zero, estimatedCredits := 0,
      endTime := none, finalCredits := none }
  ({ s with activeTransactions := setA s.activeTransactions txId tx,
            txStore := setA s.txStore txId tx },
    txId)

/-- Shared fallback of `updateResourceUsage`/`completeTransaction` in
`src/lib/credits.js`: when the id is absent from `activeTransactions`, the
record is re-loaded from the database (`db.get` throws `NotFoundError` when
the key is absent, which propagates). -/
def dbLoadActive (s : CreditSystemDb) (txId : String) :
    CreditSystemDb × Except IcnError Transaction :=
  match lookupA s.activeTransactions txId with
  | some tx => (s, .ok tx)
  | none =>
    match lookupA s.txStore txId with
    | none => (s, .error .transactionNotFound)
    | some tx =>
      ({ s with activeTransactions := setA s.activeTransactions txId tx }, .ok tx)

/-- Embeds `updateResourceUsage` of `src/lib/credits.js`:
`Object.assign(transaction.resourceUsage, usage)` REPLACES each field present
in `usage` (it does not add), then `estimatedCredits` is recomputed and the
record is re-persisted. -/
def dbUpdateResourceUsage (s : CreditSystemDb) (txId : String) (usage : UsageDelta) :
    CreditSystemDb × Except IcnError Transaction :=
  match dbLoadActive s txId with
  | (s1, .error e) => (s1, .error e)
  | (s1, .ok tx) =>
    let ru : Usage :=
      { cpuSeconds := usage.cpuSeconds.getD tx.resourceUsage.cpuSeconds,
        memoryMbSeconds := usage.memoryMbSeconds.getD tx.resourceUsage.memoryMbSeconds,
        storageGbHours := usage.storageGbHours.getD tx.resourceUsage.storageGbHours,
        bandwidthGb := usage.bandwidthGb.getD tx.resourceUsage.bandwidthGb }
    let tx1 := { tx with resourceUsage := ru, estimatedCredits := calculateCredits ru }
    ({ s1 with activeTransactions := setA s1.activeTransactions txId tx1,
               txStore := setA s1.txStore txId tx1 },
      .ok tx1)

/-- Embeds `completeTransaction` of `src/lib/credits.js`: loads the record
(falling back to the database without inspecting its `status`), marks it
completed, transfers, persists the completed record and removes it from the
active map.  Mutation order matches the JS method. -/
def dbCompleteTransaction (s : CreditSystemDb) (txId : String) (now : ℕ) :
    CreditSystemDb × Except IcnError Transaction :=
  match dbLoadActive s txId with
  | (s1, .error e) => (s1, .error e)
  | (s1, .ok tx) =>
    let creditAmount := calculateCredits tx.resourceUsage
    let tx1 := { tx with status := "completed", endTime := some now,
                         finalCredits := some creditAmount }
    let s2 := { s1 with activeTransactions := setA s1.activeTransactions txId tx1 }
    match dbTransferCredits s2 tx1.consumerId tx1.providerId creditAmount
        ("Payment for workload " ++ tx.workloadId) now with
    | (s3, .error e) => (s3, .error e)
    | (s3, .ok _) =>
      ({ s3 with txStore := setA s3.txStore txId tx1,
                 activeTransactions := removeA s3.activeTransactions txId },
        .ok tx1)

/-- A peer entry of the node's `knownPeers` `Map` (`src/index.js`). -/
structure PeerInfo where
  id : String
  nodeType : String
  apiEndpoint : String
  lastSeen : ℕ
deriving DecidableEq, Repr

/-- Declared workload requirements (`requirements.cpu.cores`,
`requirements.memory.required`). -/
structure Requirements where
  cpuCores : ℚ
  memoryRequired : String
deriving DecidableEq, Repr

/-- The default applied by the POST `/api/workloads` handler when the request
carries no `requirements`: `{ cpu: { cores: 1 }, memory: { required: "256MB" } }`. -/
def defaultRequirements : Requirements := { cpuCores := 1, memoryRequired := "256MB" }

/-- An inbound workload submission body (optional fields are `Option`). -/
structure WorkloadReq where
  id : Option String
  image : Option String
  command : Option String
  requirements : Option Requirements
  consumerId : Option NodeId
deriving DecidableEq, Repr

/-- A workload entry stored in the node's `workloads` `Map` by the POST
handler: the request spread together with `consumerId`, `providerId`,
`status: 'running'` and `createdAt`. -/
structure StoredWorkload where
  image : Option String
  command : Option String
  requirements : Requirements
  consumerId : NodeId
  providerId : NodeId
  status : String
  createdAt : ℕ
deriving DecidableEq, Repr

/-- In-memory state of the `ICNNode` class relevant to the claims:
identity, detected CPU core count, the peer table and the workload table. -/
structure NodeState where
  nodeId : NodeId
  cpuCores : ℚ
  knownPeers : List (String × PeerInfo)
  workloads : List (String × StoredWorkload)
deriving DecidableEq, Repr

/-- Outcome of the POST `/api/workloads` handler. -/
inductive SubmitResult where
  | invalidRequest
  | accepted (workloadId : String)
deriving DecidableEq, Repr

/-- Identifier generated when the request carries no id:
`wl-${Date.now()}-${Math.floor(Math.random() * 1000000)}`. -/
def genWorkloadId (now rand : ℕ) : String :=
  "wl-" ++ toString now ++ "-" ++ toString rand

/-- Embeds the POST `/api/workloads` handler of `src/index.js`:
reject with 400 when neither `image` nor `command` is present; otherwise
generate an id if needed, default the requirements and the consumer id, store
the workload with `status: 'running'` and reply `accepted`.  The handler
performs no capacity arithmetic of any kind ("Simple simulation - accept and
schedule the workload"). -/
def submitWorkload (node : NodeState) (w : WorkloadReq) (now rand : ℕ) :
    NodeState × SubmitResult :=
  if w.image.isNone && w.command.isNone then
    (node, .invalidRequest)
  else
    let wid := w.id.getD (genWorkloadId now rand)
    let stored : StoredWorkload :=
      { image := w.image, command := w.command,
        requirements := w.requirements.getD defaultRequirements,
        consumerId := w.consumerId.getD node.nodeId,
        providerId := node.nodeId,
        status := "running", createdAt := now }
    ({ node with workloads := setA node.workloads wid stored }, .accepted wid)

/-- Written from the spec's admission-policy words, for comparison with the
handler above: `available = declaredCoreCount - sum of requirements.cpu.cores
over all currently non-terminal local workloads`. -/
def specAvailableCores (node : NodeState) : ℚ :=
  node.cpuCores -
    ((node.workloads.filter (fun kv =>
        kv.2.status ≠ "completed" ∧ kv.2.status ≠ "failed" ∧ kv.2.status ≠ "stopped")).map
      (fun kv => kv.2.requirements.cpuCores)).sum

/-- Written from the spec's admission-policy words: accept iff
`available ≥ workload.requirements.cpu.cores`. -/
def specAccepts (node : NodeState) (w : WorkloadReq) : Bool :=
  (w.requirements.getD defaultRequirements).cpuCores ≤ specAvailableCores node

/-- The projection returned for each peer by the GET `/api/peers` handler. -/
structure PeerSummary where
  id : String
  nodeType : String
  apiEndpoint : String
  lastSeen : ℕ
deriving DecidableEq, Repr

/-- Projection of a stored peer entry to its listed summary. -/
def peerSummary (p : PeerInfo) : PeerSummary :=
  { id := p.id, nodeType := p.nodeType, apiEndpoint := p.apiEndpoint, lastSeen := p.lastSeen }

/-- Embeds the GET `/api/peers` handler of `src/index.js`: it maps the whole
`knownPeers` table to summaries.  No staleness filter appears here. -/
def listPeers (node : NodeState) : List PeerSummary :=
  node.knownPeers.map (fun kv => peerSummary kv.2)

/-- Embeds the POST `/api/peers` handler of `src/index.js` (the peer upsert):
`knownPeers.set(peer.id, { ...peer, lastSeen: Date.now() })`. -/
def registerPeer (node : NodeState) (peerId nodeType endpoint : String) (now : ℕ) :
    NodeState :=
  let p : PeerInfo :=
    { id := peerId, nodeType := nodeType, apiEndpoint := endpoint, lastSeen := now }
  { node with knownPeers := setA node.knownPeers peerId p }

/-- The fixed staleness window used by `_startResourceBroadcasting` and
`_findNodeForWorkload` in `src/index.js`: `5 * 60 * 1000` milliseconds. -/
def staleWindowMs : ℕ := 5 * 60 * 1000

/-- The skip condition of those two loops: `Date.now() - peer.lastSeen >
5 * 60 * 1000` (phrased without truncated subtraction; equivalent for all
inputs). -/
def isStalePeer (now : ℕ) (p : PeerInfo) : Bool :=
  p.lastSeen + staleWindowMs < now

/-- The peers the forwarding loop `_findNodeForWorkload` will actually try:
the known peers whose staleness check passes.  (The loop body then posts the
workload to each in turn; only the staleness guard matters here.) -/
def forwardablePeers (node : NodeState) (now : ℕ) : List (String × PeerInfo) :=
  node.knownPeers.filter (fun kv => !(isStalePeer now kv.2))

/-- One docker stats sample as read by `_startStatsCollection` in
`src/lib/executor.js`: the cumulative cpu counters of this and the previous
docker-internal sample, current memory usage in bytes, and the CUMULATIVE
per-interface `rx_bytes`/`tx_bytes` counters. -/
structure DockerStats where
  cpuTotalUsage : ℚ
  precpuTotalUsage : ℚ
  systemCpuUsage : ℚ
  presystemCpuUsage : ℚ
  memoryUsageBytes : ℚ
  networks : List (ℚ × ℚ)
deriving DecidableEq, Repr

/-- Sum over all network interfaces of `rx_bytes + tx_bytes` (the
`forEach` accumulation in `_startStatsCollection`). -/
def netBytesTotal (st : DockerStats) : ℚ :=
  (st.networks.map (fun n => n.1 + n.2)).sum

/-- Embeds the usage object pushed to `updateResourceUsage` on one metering
iteration of `_startStatsCollection` (interval 15000 ms): `cpuSeconds =
(cpuDelta / systemDelta) * os.cpus().length * 15`, `memoryMbSeconds =
usage/2^20 * 15`, `bandwidthGb = (rx + tx)/2^30` where `rx`/`tx` are the
cumulative interface counters of this sample; no `storageGbHours` field is
sent. -/
def statsUsageDelta (st : DockerStats) (hostCores : ℚ) : UsageDelta :=
  let cpuDelta := st.cpuTotalUsage - st.precpuTotalUsage
  let systemDelta := st.systemCpuUsage - st.presystemCpuUsage
  let cpuUsage := cpuDelta / systemDelta * hostCores
  let memoryUsageMb := st.memoryUsageBytes / (1024 * 1024)
  { cpuSeconds := some (cpuUsage * 15),
    memoryMbSeconds := some (memoryUsageMb * 15),
    storageGbHours := none,
    bandwidthGb := some (netBytesTotal st / (1024 * 1024 * 1024)) }

/-- The per-workload record kept in the executor's `activeWorkloads` `Map`. -/
structure WorkloadInfo where
  transactionId : String
  consumerId : NodeId
  status : String
  exitCode : Option ℤ
deriving DecidableEq, Repr

/-- Combined state of the executor and its credit system: the
`activeWorkloads` `Map` and the set of docker containers that currently
exist (identified here by their workload id label). -/
structure ExecutorState where
  credits : CreditSystem
  activeWorkloads : List (String × WorkloadInfo)
  containers : List String
deriving DecidableEq, Repr

/-- Embeds the `waitForCompletion` tail of `executeWorkload`
(`src/lib/executor.js`): after `container.wait()` returns `exitCode`, the
workload record is mutated to its terminal status, then
`completeTransaction` is awaited, then the workload is dropped from
`activeWorkloads` and the container removed.  If `completeTransaction`
throws, the error propagates out of `executeWorkload` and neither the drop
nor the `container.remove()` is reached. -/
def finishWorkload (es : ExecutorState) (workloadId : String) (exitCode : ℤ) (now : ℕ) :
    ExecutorState × Except IcnError String :=
  match lookupA es.activeWorkloads workloadId with
  | none => (es, .error .workloadNotFound)
  | some wi =>
    let wi1 := { wi with
      status := if exitCode = 0 then "completed" else "failed",
      exitCode := some exitCode }
    let es1 := { es with activeWorkloads := setA es.activeWorkloads workloadId wi1 }
    match completeTransaction es1.credits wi.transactionId now with
    | (c2, .error e) => ({ es1 with credits := c2 }, .error e)
    | (c2, .ok _) =>
      ({ es1 with credits := c2,
                  activeWorkloads := removeA es1.activeWorkloads workloadId,
                  containers := es1.containers.erase workloadId },
        .ok workloadId)

/-- Embeds `stopWorkload` (`src/lib/executor.js`): on the tracked path the
container is stopped, then `completeTransaction` is awaited, then the
container is removed and the workload dropped; a thrown completion error
propagates before remove/drop.  The untracked path (container found by
label) stops and removes the container without touching any transaction;
with no container either, Not-Found is thrown. -/
def stopWorkloadExec (es : ExecutorState) (workloadId : String) (now : ℕ) :
    ExecutorState × Except IcnError Bool :=
  match lookupA es.activeWorkloads workloadId with
  | some wi =>
    match completeTransaction es.credits wi.transactionId now with
    | (c2, .error e) => ({ es with credits := c2 }, .error e)
    | (c2, .ok _) =>
      ({ es with credits := c2,
                 activeWorkloads := removeA es.activeWorkloads workloadId,
                 containers := es.containers.erase workloadId },
        .ok true)
  | none =>
    if es.containers.contains workloadId then
      ({ es with containers := es.containers.erase workloadId }, .ok true)
    else
      (es, .error .workloadNotFound)

/-- The mutation `completeTransaction` applies to the transaction object
before attempting the transfer: mark completed, set `endTime`, fix
`finalCredits`. -/
def completedMark (tx : Transaction) (now : ℕ) : Transaction :=
  { tx with status := "completed", endTime := some now,
            finalCredits := some (calculateCredits tx.resourceUsage) }

/-- Sum of all stored balances (the quantity the spec's global invariant is
about; reachable states store each id at most once, but the map lemmas below
hold for arbitrary lists because `lookupA` and `setA` agree on the first
occurrence). -/
def totalBalances (s : CreditSystem) : ℚ :=
  (s.balances.map Prod.snd).sum

/-- One `_transferCredits` call described as data, to talk about sequences
of transfer operations. -/
structure TransferOp where
  src : NodeId
  dst : NodeId
  amount : ℚ
  description : String
  time : ℕ
deriving DecidableEq, Repr

/-- Folds a sequence of `_transferCredits` calls over a state, keeping the
state each call leaves behind (a failed call leaves it unchanged). -/
def runTransfers (s : CreditSystem) (ops : List TransferOp) : CreditSystem :=
  ops.foldl
    (fun st op => (transferCredits st op.src op.dst op.amount op.description op.time).1) s

/-! Helper lemmas about the association-list map operations. -/

theorem lookupA_setA_eq {α : Type} (m : List (String × α)) (k : String) (v : α) :
    lookupA (setA m k v) k = some v := by
  induction m with
  | nil => simp [setA, lookupA]
  | cons hd tl ih =>
    obtain ⟨k', w⟩ := hd
    by_cases h : k' = k
    · simp [setA, lookupA, h]
    · simp [setA, lookupA, h, ih]

theorem lookupA_setA_ne {α : Type} (m : List (String × α)) (k k' : String) (v : α)
    (h : k ≠ k') : lookupA (setA m k v) k' = lookupA m k' := by
  induction m with
  | nil => simp [setA, lookupA, h]
  | cons hd tl ih =>
    obtain ⟨k₀, w⟩ := hd
    by_cases h0 : k₀ = k
    · subst h0; simp [setA, lookupA, h]
    · by_cases h1 : k₀ = k'
      · simp [setA, lookupA, h0, h1, Ne.symm h]
      · simp [setA, lookupA, h0, h1, ih]

theorem sum_setA (m : List (String × ℚ)) (k : String) (v : ℚ) :
    ((setA m k v).map Prod.snd).sum = (m.map Prod.snd).sum + v - (lookupA m k).getD 0 := by
  induction m with
  | nil => simp [setA, lookupA]
  | cons hd tl ih =>
    obtain ⟨k', w⟩ := hd
    by_cases h : k' = k
    · simp [setA, lookupA, h]; ring
    · simp [setA, lookupA, h, ih]; ring

theorem totalBalances_transferCredits_ne (s : CreditSystem) (src dst : NodeId)
    (amount : ℚ) (description : String) (now : ℕ) (h : src ≠ dst) :
    totalBalances (transferCredits s src dst amount description now).1 = totalBalances s := by
  unfold transferCredits totalBalances
  by_cases hb : (lookupA s.balances src).getD 0 < amount
  · simp [hb]
  · simp only [hb, if_false]
    simp [sum_setA, lookupA_setA_ne _ _ _ _ h]
    ring

theorem transferCredits_insufficient_eq (s : CreditSystem) (src dst : NodeId)
    (amount : ℚ) (description : String) (now : ℕ) (h : getBalance s src < amount) :
    transferCredits s src dst amount description now = (s, .error .insufficientBalance) := by
  unfold getBalance at h
  unfold transferCredits
  simp [h]

theorem totalBalances_addCredits (s : CreditSystem) (nodeId : NodeId) (amount : ℚ)
    (reason : String) (now : ℕ) :
    totalBalances (addCredits s nodeId amount reason now).1 = totalBalances s + amount := by
  unfold addCredits totalBalances
  cases hl : lookupA s.balances nodeId with
  | none => simp [hl, sum_setA, lookupA_setA_eq]
  | some b => simp [hl, sum_setA]; ring

/-- C2 counterexample: a successful self-transfer changes the sum of all
balances.  With the single balance `a ↦ 1000`, `_transferCredits(a, a, 5)`
succeeds and leaves `a ↦ 1005` (the second `balances.set` overwrites the
first), so the total grew by 5 although no add-credits operation ran. -/
theorem transferCredits_self_transfer_changes_total :
    totalBalances (⟨[("a", 1000)], [], []⟩ : CreditSystem) = 1000 ∧
    (transferCredits ⟨[("a", 1000)], [], []⟩ "a" "a" 5 "self" 0).2 =
      .ok { fromNodeId := "a", toNodeId := "a", amount := 5, description := "self", timestamp := 0 } ∧
    totalBalances (transferCredits ⟨[("a", 1000)], [], []⟩ "a" "a" 5 "self" 0).1 = 1005 := by
  refine ⟨?_, ?_, ?_⟩ <;>
    norm_num [totalBalances, transferCredits, getBalance, lookupA, setA]

/-- C2 (amended): for every sequence of `_transferCredits` calls whose source
and destination differ, the sum of all balances is unchanged (each successful
transfer debits the source and credits the destination by the same amount,
and a failed transfer changes nothing), while `addCredits` changes the total
by exactly the amount added.  A self-transfer (source = destination), which
the code does not rule out, instead increases the total (see the
counterexample), so the zero-sum invariant holds only for distinct
endpoints. -/
theorem transfers_zero_sum_addCredits_changes_total (s : CreditSystem)
    (ops : List TransferOp) (h : ∀ op ∈ ops, op.src ≠ op.dst) :
    totalBalances (runTransfers s ops) = totalBalances s ∧
    (∀ (nodeId : NodeId) (amount : ℚ) (reason : String) (now : ℕ),
      totalBalances (addCredits s nodeId amount reason now).1 = totalBalances s + amount) := by
  constructor
  · induction ops generalizing s with
    | nil => rfl
    | cons op rest ih =>
      have h1 : op.src ≠ op.dst := h op (List.mem_cons_self op rest)
      have h2 : ∀ o ∈ rest, o.src ≠ o.dst := fun o ho => h o (List.mem_cons_of_mem op ho)
      calc totalBalances (runTransfers s (op :: rest))
          = totalBalances (runTransfers
              (transferCredits s op.src op.dst op.amount op.description op.time).1 rest) := rfl
        _ = totalBalances (transferCredits s op.src op.dst op.amount op.description op.time).1 :=
            ih _ h2
        _ = totalBalances s :=
            totalBalances_transferCredits_ne s op.src op.dst op.amount op.description op.time h1
  · intro nodeId amount reason now
    exact totalBalances_addCredits s nodeId amount reason now

/-- C2 witness: the amended theorem applied to a concrete two-transfer
sequence and a concrete add-credits call. -/
theorem transfers_zero_sum_addCredits_changes_total_witness :
    totalBalances (runTransfers ⟨[("a", 10), ("b", 5)], [], []⟩
      [⟨"a", "b", 3, "w", 0⟩, ⟨"b", "a", 100, "w2", 1⟩]) =
      totalBalances (⟨[("a", 10), ("b", 5)], [], []⟩ : CreditSystem) ∧
    totalBalances (addCredits ⟨[("a", 10), ("b", 5)], [], []⟩ "c" 7 "grant" 2).1 =
      totalBalances (⟨[("a", 10), ("b", 5)], [], []⟩ : CreditSystem) + 7 := by
  refine ⟨(transfers_zero_sum_addCredits_changes_total _ _ ?_).1,
          (transfers_zero_sum_addCredits_changes_total _ [] ?_).2 "c" 7 "grant" 2⟩
  · intro op hop
    fin_cases hop <;> simp
  · intro op hop
    simp at hop

/-- C4 (confirmed): when the source balance is below the requested amount,
`_transferCredits` throws Insufficient-Balance before any mutation: the
returned state is exactly the input state (both balances unchanged, no
transfer record appended). -/
theorem transferCredits_insufficient_balance (s : CreditSystem) (src dst : NodeId)
    (amount : ℚ) (description : String) (now : ℕ) (h : getBalance s src < amount) :
    transferCredits s src dst amount description now = (s, .error .insufficientBalance) :=
  transferCredits_insufficient_eq s src dst amount description now h

/-- C4 witness: a concrete underfunded transfer fails and leaves the state
untouched. -/
theorem transferCredits_insufficient_balance_witness :
    getBalance ⟨[("a", 2)], [], []⟩ "a" < 5 ∧
    transferCredits ⟨[("a", 2)], [], []⟩ "a" "b" 5 "pay" 3 =
      (⟨[("a", 2)], [], []⟩, .error .insufficientBalance) :=
  ⟨by norm_num [getBalance, lookupA],
    transferCredits_insufficient_balance _ "a" "b" 5 "pay" 3
      (by norm_num [getBalance, lookupA])⟩

/-- C10 counterexample: the claim quantifies over every call with a negative
amount and non-negative source balance, including aliased calls.  For
`_transferCredits(a, a, -5)` on `a ↦ 1000` the call succeeds but the source
balance ends at 995 — it decreases rather than increasing by 5, because the
destination write overwrites the source write. -/
theorem transferCredits_negative_self_transfer :
    (transferCredits ⟨[("a", 1000)], [], []⟩ "a" "a" (-5) "neg" 0).2 =
      .ok { fromNodeId := "a", toNodeId := "a", amount := -5, description := "neg", timestamp := 0 } ∧
    getBalance (transferCredits ⟨[("a", 1000)], [], []⟩ "a" "a" (-5) "neg" 0).1 "a" = 995 := by
  constructor
  · norm_num [transferCredits, getBalance, lookupA, setA]
  · norm_num [transferCredits, getBalance, lookupA, setA]

/-- C10 (amended): for every `_transferCredits` call with a negative amount,
a non-negative source balance and DISTINCT source and destination, the
insufficiency check cannot trigger: the call succeeds, the source balance
grows by the absolute amount, the destination balance shrinks by it
(possibly below zero) and a transfer record is appended — no validation
rejects negative amounts.  (For an aliased call the balances clause fails;
see the counterexample.) -/
theorem transferCredits_negative_amount_succeeds (s : CreditSystem) (src dst : NodeId)
    (amount : ℚ) (description : String) (now : ℕ)
    (hneg : amount < 0) (hbal : 0 ≤ getBalance s src) (hne : src ≠ dst) :
    (transferCredits s src dst amount description now).2 =
      .ok { fromNodeId := src, toNodeId := dst, amount := amount,
            description := description, timestamp := now } ∧
    getBalance (transferCredits s src dst amount description now).1 src =
      getBalance s src - amount ∧
    getBalance (transferCredits s src dst amount description now).1 dst =
      getBalance s dst + amount ∧
    (transferCredits s src dst amount description now).1.transactions =
      s.transactions ++ [.transferRecord
        { fromNodeId := src, toNodeId := dst, amount := amount,
          description := description, timestamp := now }] := by
  unfold getBalance at hbal ⊢
  have hnl : ¬ (lookupA s.balances src).getD 0 < amount :=
    not_lt.mpr (le_of_lt (lt_of_lt_of_le hneg hbal))
  unfold transferCredits
  simp only [hnl, if_false]
  refine ⟨?_, ?_, ?_, ?_⟩
  · simp
  · simp [lookupA_setA_ne _ _ _ _ (Ne.symm hne), lookupA_setA_eq]
  · simp [lookupA_setA_eq]
  · simp

/-- C10 witness: a concrete negative transfer between distinct identities. -/
theorem transferCredits_negative_amount_succeeds_witness :
    (-5 : ℚ) < 0 ∧ (0 : ℚ) ≤ getBalance ⟨[("a", 1000), ("b", 0)], [], []⟩ "a" ∧
    getBalance (transferCredits ⟨[("a", 1000), ("b", 0)], [], []⟩ "a" "b" (-5) "neg" 1).1 "a" =
      getBalance ⟨[("a", 1000), ("b", 0)], [], []⟩ "a" - (-5) :=
  ⟨by norm_num, by norm_num [getBalance, lookupA],
    (transferCredits_negative_amount_succeeds ⟨[("a", 1000), ("b", 0)], [], []⟩
      "a" "b" (-5) "neg" 1 (by norm_num) (by norm_num [getBalance, lookupA])
      (by simp)).2.1⟩

/-- C6 counterexample: the claim says a completion aborted by
Insufficient-Balance leaves the transaction's fields unchanged (not marked
completed, no `finalCredits` or end time).  On the concrete state below
(consumer balance 0, usage worth 1 credit) the aborted `completeTransaction`
leaves the entry in the active map already mutated: `status = "completed"`,
`endTime` and `finalCredits` assigned — the JS code mutates the aliased
object before attempting the transfer. -/
theorem completeTransaction_failure_marks_completed :
    (completeTransaction
        ⟨[("a", 0), ("b", 0)], [],
          [("t1", { id := "t1", workloadId := "w1", consumerId := "a", providerId := "b",
                    startTime := 0, status := "active", resourceUsage := ⟨100, 0, 0, 0⟩,
                    estimatedCredits := 1, endTime := none, finalCredits := none })]⟩
        "t1" 7).2 = .error .insufficientBalance ∧
    (lookupA (completeTransaction
        ⟨[("a", 0), ("b", 0)], [],
          [("t1", { id := "t1", workloadId := "w1", consumerId := "a", providerId := "b",
                    startTime := 0, status := "active", resourceUsage := ⟨100, 0, 0, 0⟩,
                    estimatedCredits := 1, endTime := none, finalCredits := none })]⟩
        "t1" 7).1.activeTransactions "t1").map Transaction.status = some "completed" := by
  constructor
  · norm_num [completeTransaction, transferCredits, calculateCredits, getBalance, lookupA, setA]
  · norm_num [completeTransaction, transferCredits, calculateCredits, getBalance, lookupA, setA]

/-- C6 (amended): if the consumer's balance is insufficient,
`completeTransaction` aborts: the Insufficient-Balance error propagates, no
balance changes, nothing is appended to the completed-transaction history,
and the transaction remains in the active set — but, unlike the claim's
"fields unchanged", the entry has already been mutated to
`status = "completed"` with `endTime` and `finalCredits` assigned, because
the code mutates the aliased object before attempting the transfer. -/
theorem completeTransaction_insufficient_aborts (s : CreditSystem) (txId : String)
    (now : ℕ) (tx : Transaction)
    (hfind : lookupA s.activeTransactions txId = some tx)
    (hbal : getBalance s tx.consumerId < calculateCredits tx.resourceUsage) :
    (completeTransaction s txId now).2 = .error .insufficientBalance ∧
    (completeTransaction s txId now).1.balances = s.balances ∧
    (completeTransaction s txId now).1.transactions = s.transactions ∧
    lookupA (completeTransaction s txId now).1.activeTransactions txId =
      some (completedMark tx now) := by
  have key : completeTransaction s txId now =
      ({ s with activeTransactions := setA s.activeTransactions txId (completedMark tx now) },
        .error .insufficientBalance) := by
    have hins := transferCredits_insufficient_eq
      { s with activeTransactions := setA s.activeTransactions txId (completedMark tx now) }
      tx.consumerId tx.providerId (calculateCredits tx.resourceUsage)
      ("Payment for workload " ++ tx.workloadId) now hbal
    unfold completeTransaction
    rw [hfind]
    unfold completedMark at hins ⊢
    simp only [hins]
  rw [key]
  exact ⟨rfl, rfl, rfl, by simp [lookupA_setA_eq]⟩

/-- C6 witness: the amended theorem applied to the concrete underfunded
state. -/
theorem completeTransaction_insufficient_aborts_witness :
    (completeTransaction
        ⟨[("a", 0), ("b", 0)], [],
          [("t2", { id := "t2", workloadId := "w2", consumerId := "a", providerId := "b",
                    startTime := 0, status := "active", resourceUsage := ⟨200, 0, 0, 0⟩,
                    estimatedCredits := 2, endTime := none, finalCredits := none })]⟩
        "t2" 9).1.balances = [("a", 0), ("b", 0)] :=
  (completeTransaction_insufficient_aborts
    ⟨[("a", 0), ("b", 0)], [],
      [("t2", { id := "t2", workloadId := "w2", consumerId := "a", providerId := "b",
                startTime := 0, status := "active", resourceUsage := ⟨200, 0, 0, 0⟩,
                estimatedCredits := 2, endTime := none, finalCredits := none })]⟩
    "t2" 9
    { id := "t2", workloadId := "w2", consumerId := "a", providerId := "b",
      startTime := 0, status := "active", resourceUsage := ⟨200, 0, 0, 0⟩,
      estimatedCredits := 2, endTime := none, finalCredits := none }
    (by simp [lookupA])
    (by norm_num [getBalance, lookupA, calculateCredits])).2.1

/-- C1 (code bug, evaluated at the failing input): in the DB-backed credit
system of `src/lib/credits.js` a second `completeTransaction` on an already
settled id does NOT fail Not-Found: the completed record is re-loaded from
the store (its `status` is never checked) and the payment is transferred a
second time.  Concretely: balances start at 1000/1000, the transaction is
worth 1 credit; the first completion leaves 999/1001 and empties the active
set, the second completion succeeds again and leaves 998/1002.  By contrast
the in-memory credit system (`src/unnamed/part_001`) behaves as the claim
states: its second call throws Not-Found and moves no credits. -/
theorem dbCompleteTransaction_double_settles :
    let s0 : CreditSystemDb := ⟨[("a", 1000), ("b", 1000)], [], [], []⟩
    let s1 := (dbStartResourceTracking s0 "w1" "a" "b" 0).1
    let s2 := (dbUpdateResourceUsage s1 (mkTransactionId "w1" 0) ⟨some 100, none, none, none⟩).1
    let r3 := dbCompleteTransaction s2 (mkTransactionId "w1" 0) 1
    let r4 := dbCompleteTransaction r3.1 (mkTransactionId "w1" 0) 2
    let m1 := (startResourceTracking ⟨[], [], []⟩ "w1" "a" "b" 0).1
    let m2 := (updateResourceUsage m1 (mkTransactionId "w1" 0) ⟨some 100, none, none, none⟩).1
    let r5 := completeTransaction m2 (mkTransactionId "w1" 0) 1
    let r6 := completeTransaction r5.1 (mkTransactionId "w1" 0) 2
    (lookupA r3.1.balances "a" = some 999 ∧
      lookupA r3.1.balances "b" = some 1001 ∧
      lookupA r3.1.activeTransactions (mkTransactionId "w1" 0) = none) ∧
    (r4.2 = .ok { id := mkTransactionId "w1" 0, workloadId := "w1", consumerId := "a",
                  providerId := "b", startTime := 0, status := "completed",
                  resourceUsage := ⟨100, 0, 0, 0⟩, estimatedCredits := 1,
                  endTime := some 2, finalCredits := some 1 } ∧
      lookupA r4.1.balances "a" = some 998 ∧
      lookupA r4.1.balances "b" = some 1002) ∧
    (lookupA r5.1.balances "a" = some 999 ∧
      r6.2 = .error .transactionNotFound ∧
      r6.1.balances = r5.1.balances) := by
  refine ⟨⟨?_, ?_, ?_⟩, ⟨?_, ?_, ?_⟩, ⟨?_, ?_, ?_⟩⟩ <;>
    norm_num [dbStartResourceTracking, dbUpdateResourceUsage, dbCompleteTransaction,
      dbLoadActive, dbTransferCredits, dbGetBalance, startResourceTracking,
      updateResourceUsage, completeTransaction, transferCredits, calculateCredits,
      lookupA, setA, removeA, Usage.zero,
      show ("a" : String) ≠ "b" from by decide,
      show ("b" : String) ≠ "a" from by decide]

/-- C5 (code bug, evaluated at the failing input): `updateResourceUsage` in
`src/lib/credits.js` uses `Object.assign`, so a usage update REPLACES each
supplied field of the cumulative usage instead of adding to it: after updates
of 100 then 30 CPU-seconds the cumulative value is 30 (it decreased), not
130.  The spec's one-update example (`{cpuSeconds:100}` giving
`estimatedCredits = 1.0`) does hold, and the in-memory system of
`src/unnamed/part_001` adds deltas (130), matching the claim. -/
theorem dbUpdateResourceUsage_replaces_usage :
    let d1 : CreditSystemDb := (dbStartResourceTracking ⟨[], [], [], []⟩ "w5" "a" "b" 0).1
    let d2 := dbUpdateResourceUsage d1 (mkTransactionId "w5" 0) ⟨some 100, none, none, none⟩
    let d3 := dbUpdateResourceUsage d2.1 (mkTransactionId "w5" 0) ⟨some 30, none, none, none⟩
    let m1 := (startResourceTracking ⟨[], [], []⟩ "w5" "a" "b" 0).1
    let m2 := updateResourceUsage m1 (mkTransactionId "w5" 0) ⟨some 100, none, none, none⟩
    let m3 := updateResourceUsage m2.1 (mkTransactionId "w5" 0) ⟨some 30, none, none, none⟩
    ((lookupA d2.1.activeTransactions (mkTransactionId "w5" 0)).map
        (fun t => (t.resourceUsage.cpuSeconds, t.estimatedCredits)) = some (100, 1)) ∧
    ((lookupA d3.1.activeTransactions (mkTransactionId "w5" 0)).map
        (fun t => (t.resourceUsage.cpuSeconds, t.estimatedCredits)) = some (30, 3 / 10)) ∧
    ((lookupA m2.1.activeTransactions (mkTransactionId "w5" 0)).map
        (fun t => (t.resourceUsage.cpuSeconds, t.estimatedCredits)) = some (100, 1)) ∧
    ((lookupA m3.1.activeTransactions (mkTransactionId "w5" 0)).map
        (fun t => (t.resourceUsage.cpuSeconds, t.estimatedCredits)) = some (130, 13 / 10)) := by
  refine ⟨?_, ?_, ?_, ?_⟩ <;>
    norm_num [dbStartResourceTracking, dbUpdateResourceUsage, dbLoadActive,
      startResourceTracking, updateResourceUsage, calculateCredits,
      lookupA, setA, Usage.zero]

/-- C3 counterexample: a node advertising 4 cores that already runs a 3-core
workload ACCEPTS a 2-core request — the POST `/api/workloads` handler stores
and accepts it although the spec's admission policy (`specAccepts`, written
from the spec's words) would reject it (`available = 1 < 2`). -/
theorem submitWorkload_accepts_beyond_capacity :
    (submitWorkload
        ⟨"B", 4, [],
          [("w0", { image := some "alpine", command := none,
                    requirements := ⟨3, "256MB"⟩, consumerId := "A", providerId := "B",
                    status := "running", createdAt := 0 })]⟩
        ⟨some "wl2", some "alpine", none, some ⟨2, "256MB"⟩, some "A"⟩ 5 0).2 =
      .accepted "wl2" ∧
    ¬ specAccepts
        ⟨"B", 4, [],
          [("w0", { image := some "alpine", command := none,
                    requirements := ⟨3, "256MB"⟩, consumerId := "A", providerId := "B",
                    status := "running", createdAt := 0 })]⟩
        ⟨some "wl2", some "alpine", none, some ⟨2, "256MB"⟩, some "A"⟩ := by
  constructor
  · norm_num [submitWorkload, setA]
  · norm_num [specAccepts, specAvailableCores, defaultRequirements,
      show ("running" : String) ≠ "completed" from by decide,
      show ("running" : String) ≠ "failed" from by decide,
      show ("running" : String) ≠ "stopped" from by decide]

/-- C3 (amended): the handler performs no capacity check at all.  Every
request carrying an image or a command is accepted locally and stored with
`status = "running"` under the request id (or a generated one), with the
default requirements and consumer id filled in, regardless of the node's
declared cores and existing workloads; only a request with neither image nor
command is rejected (as invalid, not for capacity). -/
theorem submitWorkload_accepts_every_valid_request (node : NodeState) (w : WorkloadReq)
    (now rand : ℕ) (h : w.image.isSome ∨ w.command.isSome) :
    (submitWorkload node w now rand).2 = .accepted (w.id.getD (genWorkloadId now rand)) ∧
    lookupA (submitWorkload node w now rand).1.workloads (w.id.getD (genWorkloadId now rand)) =
      some { image := w.image, command := w.command,
             requirements := w.requirements.getD defaultRequirements,
             consumerId := w.consumerId.getD node.nodeId, providerId := node.nodeId,
             status := "running", createdAt := now } := by
  rcases h with h | h
  · have himg : w.image.isNone = false := by
      cases hw : w.image <;> simp_all
    unfold submitWorkload
    rw [himg]
    simp [lookupA_setA_eq]
  · have hcmd : w.command.isNone = false := by
      cases hw : w.command <;> simp_all
    unfold submitWorkload
    rw [hcmd]
    simp [lookupA_setA_eq]

/-- C3 witness: the amended theorem at a concrete request carrying an image. -/
theorem submitWorkload_accepts_every_valid_request_witness :
    (submitWorkload ⟨"n", 4, [], []⟩
        ⟨some "wx", some "alpine", none, none, none⟩ 3 9).2 =
      .accepted ((some "wx").getD (genWorkloadId 3 9)) ∧
    lookupA (submitWorkload ⟨"n", 4, [], []⟩
        ⟨some "wx", some "alpine", none, none, none⟩ 3 9).1.workloads
        ((some "wx").getD (genWorkloadId 3 9)) =
      some { image := some "alpine", command := none,
             requirements := (none : Option Requirements).getD defaultRequirements,
             consumerId := (none : Option NodeId).getD "n", providerId := "n",
             status := "running", createdAt := 3 } :=
  submitWorkload_accepts_every_valid_request ⟨"n", 4, [], []⟩
    ⟨some "wx", some "alpine", none, none, none⟩ 3 9 (Or.inl rfl)

theorem mem_setA_self {α : Type} (m : List (String × α)) (k : String) (v : α) :
    (k, v) ∈ setA m k v := by
  induction m with
  | nil => simp [setA]
  | cons hd tl ih =>
    obtain ⟨k', w⟩ := hd
    by_cases h : k' = k
    · simp [setA, h]
    · simp only [setA, if_neg h]
      exact List.mem_cons_of_mem _ ih

/-- C7 counterexample: the GET `/api/peers` handler does not exclude stale
peers.  With one known peer last seen at time 0 and the clock at 600000 ms
(beyond the 5-minute window), the peer still appears in the listing, while
the claim says every such peer is excluded. -/
theorem listPeers_includes_stale_peer :
    isStalePeer 600000 ⟨"p1", "regular", "http://p1", 0⟩ = true ∧
    peerSummary ⟨"p1", "regular", "http://p1", 0⟩ ∈
      listPeers ⟨"n", 4, [("p1", ⟨"p1", "regular", "http://p1", 0⟩)], []⟩ := by
  constructor
  · norm_num [isStalePeer, staleWindowMs]
  · simp [listPeers, peerSummary]

/-- C7 (amended): the peer listing returns every known peer regardless of
`lastSeen` — the 5-minute staleness window is applied by the broadcast and
forwarding loops (a stale peer is skipped there), not by GET `/api/peers`;
and a fresh upsert refreshes `lastSeen` to the current time, so the peer is
listed and is again non-stale immediately afterwards. -/
theorem listPeers_ignores_staleness (node : NodeState) (now : ℕ) :
    (∀ kv ∈ node.knownPeers, peerSummary kv.2 ∈ listPeers node) ∧
    (∀ kv ∈ node.knownPeers, isStalePeer now kv.2 = true →
      kv ∉ forwardablePeers node now) ∧
    (∀ peerId nodeType endpoint : String,
      lookupA (registerPeer node peerId nodeType endpoint now).knownPeers peerId =
        some ⟨peerId, nodeType, endpoint, now⟩ ∧
      peerSummary ⟨peerId, nodeType, endpoint, now⟩ ∈
        listPeers (registerPeer node peerId nodeType endpoint now) ∧
      isStalePeer now ⟨peerId, nodeType, endpoint, now⟩ = false) := by
  refine ⟨?_, ?_, ?_⟩
  · intro kv hm
    exact List.mem_map_of_mem (fun p => peerSummary p.2) hm
  · intro kv hm hstale hfwd
    have := List.of_mem_filter hfwd
    simp [hstale] at this
  · intro peerId nodeType endpoint
    refine ⟨lookupA_setA_eq _ _ _, ?_, ?_⟩
    · exact List.mem_map_of_mem (fun p => peerSummary p.2)
        (mem_setA_self node.knownPeers peerId _)
    · simp [isStalePeer]

/-- C7 witness: the amended theorem applied to a node with one stale peer. -/
theorem listPeers_ignores_staleness_witness :
    peerSummary ⟨"p2", "regular", "http://p2", 0⟩ ∈
      listPeers ⟨"n", 4, [("p2", ⟨"p2", "regular", "http://p2", 0⟩)], []⟩ ∧
    isStalePeer 900000 ⟨"p2", "regular", "http://p2", 900000⟩ = false :=
  ⟨(listPeers_ignores_staleness ⟨"n", 4, [("p2", ⟨"p2", "regular", "http://p2", 0⟩)], []⟩
      900000).1 ("p2", ⟨"p2", "regular", "http://p2", 0⟩) (by simp),
   ((listPeers_ignores_staleness ⟨"n", 4, [], []⟩ 900000).2.2 "p2" "regular" "http://p2").2.2⟩

/-- C8 counterexample: the metering loop bills the CUMULATIVE interface
counters, not their delta.  Two consecutive samples with identical cumulative
network totals (2^30 bytes, i.e. no traffic in between) should contribute a
0-GB delta per the claim, but the second sample's pushed `bandwidthGb` is 1. -/
theorem statsUsageDelta_rebills_bandwidth :
    netBytesTotal ⟨200, 100, 2000, 1000, 0, [(536870912, 536870912)]⟩ -
      netBytesTotal ⟨100, 50, 1000, 0, 0, [(536870912, 536870912)]⟩ = 0 ∧
    (statsUsageDelta ⟨200, 100, 2000, 1000, 0, [(536870912, 536870912)]⟩ 4).bandwidthGb =
      some 1 := by
  constructor
  · norm_num [netBytesTotal]
  · norm_num [statsUsageDelta, netBytesTotal]

/-- C8 (amended): on each 15-second metering iteration the delta pushed into
the (additive, in-memory) ledger satisfies: cumulative cpuSeconds grows by
`(cpuUsageDelta / systemUsageDelta) x coreCount x 15`, memoryMbSeconds by
`currentMemoryMB x 15`, storageGbHours is untouched — but bandwidthGb grows
by the CUMULATIVE `rx+tx` byte total of the sample converted to GB (not the
delta since the previous iteration), so bytes already billed are counted
again on every later iteration. -/
theorem metering_update_accumulates (s : CreditSystem) (txId : String)
    (st : DockerStats) (hostCores : ℚ) (tx : Transaction)
    (hfind : lookupA s.activeTransactions txId = some tx) :
    (lookupA (updateResourceUsage s txId (statsUsageDelta st hostCores)).1.activeTransactions
        txId).map Transaction.resourceUsage =
      some { cpuSeconds := tx.resourceUsage.cpuSeconds +
               (st.cpuTotalUsage - st.precpuTotalUsage) /
                 (st.systemCpuUsage - st.presystemCpuUsage) * hostCores * 15,
             memoryMbSeconds := tx.resourceUsage.memoryMbSeconds +
               st.memoryUsageBytes / (1024 * 1024) * 15,
             storageGbHours := tx.resourceUsage.storageGbHours,
             bandwidthGb := tx.resourceUsage.bandwidthGb +
               netBytesTotal st / (1024 * 1024 * 1024) } ∧
    (lookupA (updateResourceUsage s txId (statsUsageDelta st hostCores)).1.activeTransactions
        txId).map Transaction.estimatedCredits =
      some (calculateCredits
        { cpuSeconds := tx.resourceUsage.cpuSeconds +
            (st.cpuTotalUsage - st.precpuTotalUsage) /
              (st.systemCpuUsage - st.presystemCpuUsage) * hostCores * 15,
          memoryMbSeconds := tx.resourceUsage.memoryMbSeconds +
            st.memoryUsageBytes / (1024 * 1024) * 15,
          storageGbHours := tx.resourceUsage.storageGbHours,
          bandwidthGb := tx.resourceUsage.bandwidthGb +
            netBytesTotal st / (1024 * 1024 * 1024) }) := by
  unfold updateResourceUsage
  rw [hfind]
  simp [lookupA_setA_eq, statsUsageDelta]

/-- C8 witness: the amended theorem at a concrete sample (cpu delta 50 of
1000 on 4 cores, zero memory, 2^30 cumulative network bytes) on a zero-usage
transaction. -/
theorem metering_update_accumulates_witness :
    (lookupA (updateResourceUsage
        ⟨[], [],
          [("t8", { id := "t8", workloadId := "w8", consumerId := "a", providerId := "b",
                    startTime := 0, status := "active", resourceUsage := ⟨0, 0, 0, 0⟩,
                    estimatedCredits := 0, endTime := none, finalCredits := none })]⟩
        "t8" (statsUsageDelta ⟨100, 50, 1000, 0, 0, [(536870912, 536870912)]⟩ 4)).1.activeTransactions
        "t8").map Transaction.resourceUsage =
      some { cpuSeconds := 0 + (100 - 50) / (1000 - 0) * 4 * 15,
             memoryMbSeconds := 0 + 0 / (1024 * 1024) * 15,
             storageGbHours := 0,
             bandwidthGb := 0 + netBytesTotal ⟨100, 50, 1000, 0, 0, [(536870912, 536870912)]⟩ /
               (1024 * 1024 * 1024) } :=
  (metering_update_accumulates
    ⟨[], [],
      [("t8", { id := "t8", workloadId := "w8", consumerId := "a", providerId := "b",
                startTime := 0, status := "active", resourceUsage := ⟨0, 0, 0, 0⟩,
                estimatedCredits := 0, endTime := none, finalCredits := none })]⟩
    "t8" ⟨100, 50, 1000, 0, 0, [(536870912, 536870912)]⟩ 4
    { id := "t8", workloadId := "w8", consumerId := "a", providerId := "b",
      startTime := 0, status := "active", resourceUsage := ⟨0, 0, 0, 0⟩,
      estimatedCredits := 0, endTime := none, finalCredits := none }
    (by simp [lookupA])).1

/-- C9 (code bug, evaluated at the failing input): when `completeTransaction`
throws Insufficient-Balance (consumer balance 0, usage worth 1 credit), both
the synchronous `executeWorkload` completion path and `stopWorkload`
propagate the error BEFORE `container.remove()` and before dropping the
workload: the container stays in existence and the workload stays tracked —
the claim (and the spec's error-handling design) says the container must
still be released. -/
theorem executor_leaks_container_on_insufficient_balance :
    ((finishWorkload
        ⟨⟨[("a", 0), ("b", 0)], [],
           [("t1", { id := "t1", workloadId := "w1", consumerId := "a", providerId := "b",
                     startTime := 0, status := "active", resourceUsage := ⟨100, 0, 0, 0⟩,
                     estimatedCredits := 1, endTime := none, finalCredits := none })]⟩,
          [("w1", ⟨"t1", "a", "running", none⟩)], ["w1"]⟩
        "w1" 0 5).2 = .error .insufficientBalance ∧
      (finishWorkload
        ⟨⟨[("a", 0), ("b", 0)], [],
           [("t1", { id := "t1", workloadId := "w1", consumerId := "a", providerId := "b",
                     startTime := 0, status := "active", resourceUsage := ⟨100, 0, 0, 0⟩,
                     estimatedCredits := 1, endTime := none, finalCredits := none })]⟩,
          [("w1", ⟨"t1", "a", "running", none⟩)], ["w1"]⟩
        "w1" 0 5).1.containers = ["w1"] ∧
      lookupA (finishWorkload
        ⟨⟨[("a", 0), ("b", 0)], [],
           [("t1", { id := "t1", workloadId := "w1", consumerId := "a", providerId := "b",
                     startTime := 0, status := "active", resourceUsage := ⟨100, 0, 0, 0⟩,
                     estimatedCredits := 1, endTime := none, finalCredits := none })]⟩,
          [("w1", ⟨"t1", "a", "running", none⟩)], ["w1"]⟩
        "w1" 0 5).1.activeWorkloads "w1" = some ⟨"t1", "a", "completed", some 0⟩) ∧
    ((stopWorkloadExec
        ⟨⟨[("a", 0), ("b", 0)], [],
           [("t1", { id := "t1", workloadId := "w1", consumerId := "a", providerId := "b",
                     startTime := 0, status := "active", resourceUsage := ⟨100, 0, 0, 0⟩,
                     estimatedCredits := 1, endTime := none, finalCredits := none })]⟩,
          [("w1", ⟨"t1", "a", "running", none⟩)], ["w1"]⟩
        "w1" 5).2 = .error .insufficientBalance ∧
      (stopWorkloadExec
        ⟨⟨[("a", 0), ("b", 0)], [],
           [("t1", { id := "t1", workloadId := "w1", consumerId := "a", providerId := "b",
                     startTime := 0, status := "active", resourceUsage := ⟨100, 0, 0, 0⟩,
                     estimatedCredits := 1, endTime := none, finalCredits := none })]⟩,
          [("w1", ⟨"t1", "a", "running", none⟩)], ["w1"]⟩
        "w1" 5).1.containers = ["w1"] ∧
      lookupA (stopWorkloadExec
        ⟨⟨[("a", 0), ("b", 0)], [],
           [("t1", { id := "t1", workloadId := "w1", consumerId := "a", providerId := "b",
                     startTime := 0, status := "active", resourceUsage := ⟨100, 0, 0, 0⟩,
                     estimatedCredits := 1, endTime := none, finalCredits := none })]⟩,
          [("w1", ⟨"t1", "a", "running", none⟩)], ["w1"]⟩
        "w1" 5).1.activeWorkloads "w1" = some ⟨"t1", "a", "running", none⟩) := by
  refine ⟨⟨?_, ?_, ?_⟩, ⟨?_, ?_, ?_⟩⟩ <;>
    norm_num [finishWorkload, stopWorkloadExec, completeTransaction, transferCredits,
      calculateCredits, getBalance, lookupA, setA, removeA,
      show ("a" : String) ≠ "b" from by decide,
      show ("b" : String) ≠ "a" from by decide]

end ICN
